import Mathlib

/-!
Shallow embedding of the suomipelit-lobby relay server (src/main.rs) and
verification of the specification's claims about it.

The Rust source is a single file: a session directory (`Games`), a
connection registry (`Sockets`), a pure message router
(`process_incoming_message` / `process_disconnect`) and a per-connection
loop (`SocketState::handle_message`).  Rust `HashSet<SocketId>` is modelled
as a `List SocketId` into which `insert` appends only when absent, and
`HashMap` as an association list.  `u32` fields are carried as `Nat` (they
are only stored and copied, never subject to arithmetic, so no wraparound
arises).  Randomly generated identifiers (`GameId::random`) are modelled
by an explicit `fresh` argument supplied by the environment.  JSON payload
values (`serde_json::Value`) are never examined by the code, so they are
carried as an abstract token type.
-/

namespace Lobby

/-- Connection identifier: a random string (Rust `SocketId(String)`). -/
structure SocketId where
  sid : String
deriving DecidableEq

/-- Session identifier: a random or caller-supplied string (Rust `GameId(String)`). -/
structure GameId where
  gid : String
deriving DecidableEq

/-- A pass-through JSON payload (`serde_json::Value`): carried verbatim, never inspected. -/
structure JsonValue where
  payload : String
deriving DecidableEq

/-- Rust `struct GameInfo` (main.rs lines 13-18). -/
structure GameInfo where
  server_name : String
  player_amount : Nat
  max_players : Nat
  requires_password : Bool
deriving DecidableEq

/-- Rust `struct Game` (main.rs lines 20-25); `clients: HashSet<SocketId>` is a
duplicate-free list. -/
structure Game where
  game_id : GameId
  host : SocketId
  clients : List SocketId
  game_info : GameInfo
deriving DecidableEq

/-- Rust `struct Games(Vec<Game>)`. -/
abbrev Games := List Game

/-- `Games::add` (lines 34-36): `self.0.push(game)`. -/
def Games.add (gs : Games) (game : Game) : Games :=
  gs ++ [game]

/-- `Games::update_info` (lines 38-45): replace the info of the first game whose
host matches; report whether one was found. -/
def Games.update_info (gs : Games) (host : SocketId) (info : GameInfo) : Games × Bool :=
  match gs with
  | [] => ([], false)
  | g :: rest =>
    if g.host = host then
      ({ g with game_info := info } :: rest, true)
    else
      let r := Games.update_info rest host info
      (g :: r.1, r.2)

/-- Rust `enum JoinGameError` (lines 155-159). -/
inductive JoinGameError
  | gameNotFound
  | alreadyJoined
deriving DecidableEq

/-- `Games::join_game` (lines 47-62): find the first game with the given id
(`GameNotFound` if none); `clients.insert` returns false when already present
(`AlreadyJoined`), otherwise the client is added and the host id returned. -/
def Games.join_game (gs : Games) (game_id : GameId) (client : SocketId) :
    Games × Except JoinGameError SocketId :=
  match gs with
  | [] => ([], Except.error JoinGameError.gameNotFound)
  | g :: rest =>
    if g.game_id = game_id then
      if client ∈ g.clients then
        (g :: rest, Except.error JoinGameError.alreadyJoined)
      else
        ({ g with clients := g.clients ++ [client] } :: rest, Except.ok g.host)
    else
      let r := Games.join_game rest game_id client
      (g :: r.1, r.2)

/-- `Games::remove_game` (lines 64-71): remove the first game whose host matches,
reporting whether one was removed. -/
def Games.remove_game (gs : Games) (host : SocketId) : Games × Bool :=
  match gs with
  | [] => ([], false)
  | g :: rest =>
    if g.host = host then
      (rest, true)
    else
      let r := Games.remove_game rest host
      (g :: r.1, r.2)

/-- `Games::remove_client` (lines 73-77): `clients.remove(client)` on every game. -/
def Games.remove_client (gs : Games) (client : SocketId) : Games :=
  gs.map fun g => { g with clients := g.clients.filter fun c => c ≠ client }

/-- Rust `struct OutgoingGameInfo` (lines 530-538). -/
structure OutgoingGameInfo where
  game_id : GameId
  server_name : String
  player_amount : Nat
  max_players : Nat
  requires_password : Bool
deriving DecidableEq

/-- `Games::list` (lines 79-90). -/
def Games.list (gs : Games) : List OutgoingGameInfo :=
  gs.map fun g =>
    { game_id := g.game_id
      server_name := g.game_info.server_name
      player_amount := g.game_info.player_amount
      max_players := g.game_info.max_players
      requires_password := g.game_info.requires_password }

/-- `Games::get_game_by_host` (lines 92-94): first game whose host matches. -/
def Games.get_game_by_host (gs : Games) (host : SocketId) : Option Game :=
  gs.find? fun g => decide (g.host = host)

/-- `Games::get_game_by_client` (lines 96-98): first game whose membership
contains the client. -/
def Games.get_game_by_client (gs : Games) (client : SocketId) : Option Game :=
  gs.find? fun g => decide (client ∈ g.clients)

/-- Rust `enum IncomingMessage` (lines 454-494). -/
inductive IncomingMessage
  | webrtcSignaling (client_id : Option SocketId)
      (description : Option JsonValue) (candidate : Option JsonValue)
  | createGame (server_name : String) (max_players : Nat)
      (game_id : Option GameId) (requires_password : Option Bool)
  | updateGameInfo (server_name : String) (player_amount : Nat)
      (max_players : Nat) (requires_password : Option Bool)
  | listGames
  | joinGame (game_id : GameId) (password : Option String)
  | acceptJoin (game_id : GameId) (client_id : SocketId)
  | rejectJoin (game_id : GameId) (client_id : SocketId) (reason : String)
deriving DecidableEq

/-- Rust `enum OutgoingMessage` (lines 496-528). -/
inductive OutgoingMessage
  | error (reason : String)
  | webrtcSignaling (game_id : GameId) (client_id : Option SocketId)
      (description : Option JsonValue) (candidate : Option JsonValue)
  | gameCreated (game_id : GameId)
  | gameList (games : List OutgoingGameInfo)
  | newClient (game_id : GameId) (client_id : SocketId) (password : Option String)
  | acceptJoin (game_id : GameId)
  | rejectJoin (game_id : GameId) (reason : String)
deriving DecidableEq

/-- Rust `struct MessagesToSend` (lines 278-281). -/
structure MessagesToSend where
  self_message : Option OutgoingMessage
  other_message : Option (SocketId × OutgoingMessage)
deriving DecidableEq

/-- `MessagesToSend::self_` (lines 284-289). -/
def MessagesToSend.self_ (message : OutgoingMessage) : MessagesToSend :=
  ⟨some message, none⟩

/-- `MessagesToSend::other` (lines 291-296). -/
def MessagesToSend.other (id : SocketId) (message : OutgoingMessage) : MessagesToSend :=
  ⟨none, some (id, message)⟩

/-- `MessagesToSend::none` (lines 298-303). -/
def MessagesToSend.noMessages : MessagesToSend :=
  ⟨none, none⟩

/-- `format!("{:?}", err)` on a `JoinGameError` (line 396): the derived Debug text. -/
def JoinGameError.debugText : JoinGameError → String
  | JoinGameError.gameNotFound => "GameNotFound"
  | JoinGameError.alreadyJoined => "AlreadyJoined"

/-- `process_incoming_message` (lines 306-424).  `fresh` stands for the value
`GameId::random()` would produce when `CreateGame` carries no id. -/
def process_incoming_message (socket_id : SocketId) (games : Games)
    (message : IncomingMessage) (fresh : GameId) : Games × MessagesToSend :=
  match message with
  | IncomingMessage.webrtcSignaling target_socket_id description candidate =>
    match target_socket_id with
    | some target =>
      match Games.get_game_by_host games socket_id with
      | some game =>
        (games, MessagesToSend.other target
          (OutgoingMessage.webrtcSignaling game.game_id none description candidate))
      | none => (games, MessagesToSend.noMessages)
    | none =>
      match Games.get_game_by_client games socket_id with
      | some game =>
        (games, MessagesToSend.other game.host
          (OutgoingMessage.webrtcSignaling game.game_id (some socket_id) description candidate))
      | none => (games, MessagesToSend.noMessages)
  | IncomingMessage.createGame server_name max_players game_id requires_password =>
    let gid := game_id.getD fresh
    (Games.add games
      { game_id := gid
        host := socket_id
        clients := []
        game_info :=
          { server_name := server_name
            player_amount := 1
            max_players := max_players
            requires_password := requires_password.getD false } },
     MessagesToSend.self_ (OutgoingMessage.gameCreated gid))
  | IncomingMessage.updateGameInfo server_name player_amount max_players requires_password =>
    let r := Games.update_info games socket_id
      { server_name := server_name
        player_amount := player_amount
        max_players := max_players
        requires_password := requires_password.getD false }
    if r.2 then
      (r.1, MessagesToSend.noMessages)
    else
      (r.1, MessagesToSend.self_ (OutgoingMessage.error ("You\x27re not a game host")))
  | IncomingMessage.listGames =>
    (games, MessagesToSend.self_ (OutgoingMessage.gameList (Games.list games)))
  | IncomingMessage.joinGame game_id password =>
    let r := Games.join_game games game_id socket_id
    match r.2 with
    | Except.error err =>
      (r.1, MessagesToSend.self_ (OutgoingMessage.error (JoinGameError.debugText err)))
    | Except.ok host =>
      (r.1, MessagesToSend.other host
        (OutgoingMessage.newClient game_id socket_id password))
  | IncomingMessage.acceptJoin game_id accepted_socket_id =>
    (games, MessagesToSend.other accepted_socket_id (OutgoingMessage.acceptJoin game_id))
  | IncomingMessage.rejectJoin game_id rejected_socket_id reason =>
    (Games.remove_client games rejected_socket_id,
     MessagesToSend.other rejected_socket_id (OutgoingMessage.rejectJoin game_id reason))

/-- `process_disconnect` (lines 426-431): remove the session hosted by this
connection and stop there if one existed; only otherwise scrub the connection
from every membership. -/
def process_disconnect (socket_id : SocketId) (games : Games) : Games :=
  let r := Games.remove_game games socket_id
  if r.2 then r.1 else Games.remove_client r.1 socket_id

/-- An entry of the connection registry maps a socket id to the sending end of
that connection's outbound queue; the queue handle itself is abstract. -/
abbrev Sender := Nat

/-- Rust `struct Sockets(HashMap<SocketId, Sender>)` (line 101), as an
association list. -/
abbrev Sockets := List (SocketId × Sender)

/-- The lookup inside `Sockets::get` (lines 108-110): `self.0.get(socket_id)`.
The source immediately calls `.unwrap()` on this, which panics when the id is
not registered; the panic is modelled at the call site (`deliver_other`). -/
def Sockets.get (s : Sockets) (socket_id : SocketId) : Option Sender :=
  (s.find? fun e => decide (e.1 = socket_id)).map fun e => e.2

/-- The text a Rust `Option::unwrap` panic carries. -/
def unwrapPanicText : String :=
  "called Option::unwrap on a None value"

/-- Delivery of an other-directed message (lines 262-267): the registry lookup
is unwrapped, so an unregistered target id makes the connection task panic
(`Except.error`); otherwise the message is enqueued on the returned sender.
(The further `tx.send(..).unwrap()` can also panic if the target queue closed;
that failure mode is not modelled, which only favours the spec's claim.) -/
def deliver_other (sockets : Sockets) (target : SocketId) : Except String Sender :=
  match Sockets.get sockets target with
  | some tx => Except.ok tx
  | none => Except.error unwrapPanicText

/-- A received websocket frame after the transport layer: `to_text` succeeds on
text frames and fails on the rest (lines 229-235). -/
inductive RawMessage
  | text (data : String)
  | nonText
deriving DecidableEq

/-- The contents of `axum::Error` are never examined. -/
abbrev TransportError := Unit

/-- The observable outcome of one `SocketState::handle_message` call.
`delivery = some (Except.error _)` records that the task panicked at the
registry unwrap while delivering the other-directed message (so the loop is in
fact aborted, whatever `keep_running` says); `some (Except.ok tx)` records a
successful enqueue on `tx`; `none` means no other-directed message arose. -/
structure HandleResult where
  keep_running : Bool
  games : Games
  sent_self : List OutgoingMessage
  delivery : Option (Except String Sender)

/-- `SocketState::handle_message` (lines 218-270).  `parse` stands for
`serde_json::from_str` at the serialization boundary (out of scope per the
spec), `fresh` for `GameId::random`.  `none` input is a closed stream,
`some (Except.error _)` a transport-level receive error, `some (Except.ok m)`
a received frame. -/
def handle_message (parse : String → Except String IncomingMessage) (fresh : GameId)
    (socket_id : SocketId) (games : Games) (sockets : Sockets)
    (message : Option (Except TransportError RawMessage)) : HandleResult :=
  match message with
  | none =>
    { keep_running := false
      games := process_disconnect socket_id games
      sent_self := []
      delivery := none }
  | some (Except.error _) =>
    { keep_running := true, games := games, sent_self := [], delivery := none }
  | some (Except.ok RawMessage.nonText) =>
    { keep_running := true
      games := games
      sent_self := [OutgoingMessage.error ("Invalid message")]
      delivery := none }
  | some (Except.ok (RawMessage.text data)) =>
    if data = "" then
      { keep_running := true, games := games, sent_self := [], delivery := none }
    else
      match parse data with
      | Except.error err =>
        { keep_running := true
          games := games
          sent_self := [OutgoingMessage.error ("Invalid message: " ++ err)]
          delivery := none }
      | Except.ok incoming =>
        let r := process_incoming_message socket_id games incoming fresh
        { keep_running := true
          games := r.1
          sent_self := (r.2.self_message.map fun m => [m]).getD []
          delivery := r.2.other_message.map fun om => deliver_other sockets om.1 }

/-- One event of a connection, as the router sees it: a parsed message together
with the random id the environment would mint for it, or a disconnect. -/
inductive ConnEvent
  | message (m : IncomingMessage) (fresh : GameId)
  | disconnect
deriving DecidableEq

/-- A step of a system trace: which connection acted and what it did. -/
structure TraceStep where
  sender : SocketId
  event : ConnEvent
deriving DecidableEq

/-- The session directory update one trace step performs. -/
def step_games (games : Games) (s : TraceStep) : Games :=
  match s.event with
  | ConnEvent.message m fresh => (process_incoming_message s.sender games m fresh).1
  | ConnEvent.disconnect => process_disconnect s.sender games

/-- The session directory reached from the empty directory by a trace. -/
def run_trace (steps : List TraceStep) : Games :=
  steps.foldl step_games []

/-- The invariant claimed by the spec: no session's membership contains that
session's own host id. -/
def host_not_member (games : Games) : Prop :=
  ∀ g ∈ games, g.host ∉ g.clients

/-- A trace avoids self-joins when no step sends `joinGame` naming a session the
sender is itself hosting (resolving the id, as the code does, to the first
session carrying it). -/
def self_join_free (games : Games) : List TraceStep → Bool
  | [] => true
  | s :: rest =>
    (match s.event with
     | ConnEvent.message (IncomingMessage.joinGame gid _) _ =>
       match games.find? fun g => decide (g.game_id = gid) with
       | some g => decide (g.host ≠ s.sender)
       | none => true
     | _ => true)
    && self_join_free (step_games games s) rest

/-- How many sessions a given connection hosts. -/
def hosted_count (games : Games) (host : SocketId) : Nat :=
  (games.filter fun g => decide (g.host = host)).length

/-- Sample identities for concrete evaluations. -/
def sidA : SocketId := ⟨"alice"⟩

def sidB : SocketId := ⟨"bob"⟩

def sidC : SocketId := ⟨"carol"⟩

def gidA : GameId := ⟨"g1"⟩

def gidB : GameId := ⟨"g2"⟩

def info0 : GameInfo := ⟨"Arena", 1, 4, false⟩

/-! ## Structural lemmas about the directory operations -/

theorem remove_client_not_mem (gs : Games) (c : SocketId) :
    ∀ g ∈ Games.remove_client gs c, c ∉ g.clients := by
  intro g hg hc
  simp only [Games.remove_client, List.mem_map] at hg
  obtain ⟨g0, -, rfl⟩ := hg
  simp [List.mem_filter] at hc

theorem remove_client_eq_self (gs : Games) (c : SocketId) :
    (∀ g ∈ gs, c ∉ g.clients) → Games.remove_client gs c = gs := by
  induction gs with
  | nil => intro _; rfl
  | cons g rest ih =>
    intro h
    have hg : (g.clients.filter fun x => x ≠ c) = g.clients := by
      rw [List.filter_eq_self]
      intro a ha
      simp only [ne_eq, decide_not, Bool.not_eq_true', decide_eq_false_iff_not]
      rintro rfl
      exact h g (List.mem_cons_self g rest) ha
    have hrest := ih fun g' hg' => h g' (List.mem_cons_of_mem _ hg')
    simp only [Games.remove_client, List.map_cons] at hrest ⊢
    rw [hrest, hg]

theorem remove_client_preserves (gs : Games) (c : SocketId) :
    host_not_member gs → host_not_member (Games.remove_client gs c) := by
  intro h g hg hmem
  simp only [Games.remove_client, List.mem_map] at hg
  obtain ⟨g0, hg0, rfl⟩ := hg
  simp only [List.mem_filter] at hmem
  exact h g0 hg0 hmem.1

theorem remove_game_of_none (gs : Games) (c : SocketId) :
    (∀ g ∈ gs, g.host ≠ c) → Games.remove_game gs c = (gs, false) := by
  induction gs with
  | nil => intro _; rfl
  | cons g rest ih =>
    intro h
    have hg : ¬g.host = c := h g (List.mem_cons_self g rest)
    have hrest := ih fun g' hg' => h g' (List.mem_cons_of_mem _ hg')
    simp [Games.remove_game, hg, hrest]

theorem remove_game_decomp (gs : Games) (c : SocketId) (g0 : Game) :
    (gs.find? fun g => decide (g.host = c)) = some g0 →
    ∃ l₁ l₂, gs = l₁ ++ g0 :: l₂ ∧ (∀ g ∈ l₁, g.host ≠ c) ∧ g0.host = c ∧
      Games.remove_game gs c = (l₁ ++ l₂, true) := by
  induction gs with
  | nil => intro hf; simp at hf
  | cons g rest ih =>
    intro hf
    by_cases hg : g.host = c
    · rw [List.find?_cons_of_pos _ (by simpa using hg)] at hf
      obtain rfl : g = g0 := by injection hf
      exact ⟨[], rest, by simp, by simp, hg, by simp [Games.remove_game, hg]⟩
    · rw [List.find?_cons_of_neg _ (by simpa using hg)] at hf
      obtain ⟨l₁, l₂, rfl, hl₁, hg0, hrg⟩ := ih hf
      refine ⟨g :: l₁, l₂, by simp, ?_, hg0, ?_⟩
      · intro g' hg'
        rcases List.mem_cons.mp hg' with rfl | hmem
        · exact hg
        · exact hl₁ g' hmem
      · simp [Games.remove_game, hg, hrg]

theorem remove_game_mem (gs : Games) (c : SocketId) :
    ∀ g ∈ (Games.remove_game gs c).1, g ∈ gs := by
  induction gs with
  | nil => intro g hg; simp [Games.remove_game] at hg
  | cons g0 rest ih =>
    intro g hg
    by_cases hg0 : g0.host = c
    · simp only [Games.remove_game, if_pos hg0] at hg
      exact List.mem_cons_of_mem _ hg
    · simp only [Games.remove_game, if_neg hg0] at hg
      rcases List.mem_cons.mp hg with rfl | hmem
      · exact List.mem_cons_self _ _
      · exact List.mem_cons_of_mem _ (ih g hmem)

theorem process_disconnect_preserves (gs : Games) (c : SocketId) :
    host_not_member gs → host_not_member (process_disconnect c gs) := by
  intro h
  unfold process_disconnect
  by_cases hr : (Games.remove_game gs c).2
  · simp only [hr, if_true]
    exact fun g hg => h g (remove_game_mem gs c g hg)
  · simp only [hr, if_false, Bool.false_eq_true]
    exact remove_client_preserves _ _ fun g hg => h g (remove_game_mem gs c g hg)

theorem update_info_of_none (gs : Games) (c : SocketId) (info : GameInfo) :
    (∀ g ∈ gs, g.host ≠ c) → Games.update_info gs c info = (gs, false) := by
  induction gs with
  | nil => intro _; rfl
  | cons g rest ih =>
    intro h
    have hg : ¬g.host = c := h g (List.mem_cons_self g rest)
    have hrest := ih fun g' hg' => h g' (List.mem_cons_of_mem _ hg')
    simp [Games.update_info, hg, hrest]

theorem update_info_decomp (gs : Games) (c : SocketId) (info : GameInfo) (g0 : Game) :
    (gs.find? fun g => decide (g.host = c)) = some g0 →
    ∃ l₁ l₂, gs = l₁ ++ g0 :: l₂ ∧ (∀ g ∈ l₁, g.host ≠ c) ∧ g0.host = c ∧
      Games.update_info gs c info = (l₁ ++ { g0 with game_info := info } :: l₂, true) := by
  induction gs with
  | nil => intro hf; simp at hf
  | cons g rest ih =>
    intro hf
    by_cases hg : g.host = c
    · rw [List.find?_cons_of_pos _ (by simpa using hg)] at hf
      obtain rfl : g = g0 := by injection hf
      exact ⟨[], rest, by simp, by simp, hg, by simp [Games.update_info, hg]⟩
    · rw [List.find?_cons_of_neg _ (by simpa using hg)] at hf
      obtain ⟨l₁, l₂, rfl, hl₁, hg0, hrg⟩ := ih hf
      refine ⟨g :: l₁, l₂, by simp, ?_, hg0, ?_⟩
      · intro g' hg'
        rcases List.mem_cons.mp hg' with rfl | hmem
        · exact hg
        · exact hl₁ g' hmem
      · simp [Games.update_info, hg, hrg]

theorem update_info_preserves (gs : Games) (c : SocketId) (info : GameInfo) :
    host_not_member gs → host_not_member (Games.update_info gs c info).1 := by
  induction gs with
  | nil => intro h; exact h
  | cons g rest ih =>
    intro h g' hg'
    by_cases hg : g.host = c
    · simp only [Games.update_info, if_pos hg] at hg'
      rcases List.mem_cons.mp hg' with rfl | hmem
      · exact h g (List.mem_cons_self g rest)
      · exact h _ (List.mem_cons_of_mem _ hmem)
    · simp only [Games.update_info, if_neg hg] at hg'
      rcases List.mem_cons.mp hg' with rfl | hmem
      · exact h _ (List.mem_cons_self _ _)
      · exact ih (fun x hx => h x (List.mem_cons_of_mem _ hx)) g' hmem

theorem join_game_of_none (gs : Games) (gid : GameId) (c : SocketId) :
    (∀ g ∈ gs, g.game_id ≠ gid) →
    Games.join_game gs gid c = (gs, Except.error JoinGameError.gameNotFound) := by
  induction gs with
  | nil => intro _; rfl
  | cons g rest ih =>
    intro h
    have hg : ¬g.game_id = gid := h g (List.mem_cons_self g rest)
    have hrest := ih fun g' hg' => h g' (List.mem_cons_of_mem _ hg')
    simp [Games.join_game, hg, hrest]

theorem join_game_already (gs : Games) (gid : GameId) (c : SocketId) (g0 : Game) :
    (gs.find? fun g => decide (g.game_id = gid)) = some g0 → c ∈ g0.clients →
    Games.join_game gs gid c = (gs, Except.error JoinGameError.alreadyJoined) := by
  induction gs with
  | nil => intro hf; simp at hf
  | cons g rest ih =>
    intro hf hc
    by_cases hg : g.game_id = gid
    · rw [List.find?_cons_of_pos _ (by simpa using hg)] at hf
      obtain rfl : g = g0 := by injection hf
      simp [Games.join_game, hg, hc]
    · rw [List.find?_cons_of_neg _ (by simpa using hg)] at hf
      have hrest := ih hf hc
      simp [Games.join_game, hg, hrest]

theorem join_game_success_decomp (gs : Games) (gid : GameId) (c : SocketId) (g0 : Game) :
    (gs.find? fun g => decide (g.game_id = gid)) = some g0 → c ∉ g0.clients →
    ∃ l₁ l₂, gs = l₁ ++ g0 :: l₂ ∧ (∀ g ∈ l₁, g.game_id ≠ gid) ∧ g0.game_id = gid ∧
      Games.join_game gs gid c =
        (l₁ ++ { g0 with clients := g0.clients ++ [c] } :: l₂, Except.ok g0.host) := by
  induction gs with
  | nil => intro hf; simp at hf
  | cons g rest ih =>
    intro hf hc
    by_cases hg : g.game_id = gid
    · rw [List.find?_cons_of_pos _ (by simpa using hg)] at hf
      obtain rfl : g = g0 := by injection hf
      exact ⟨[], rest, by simp, by simp, hg, by simp [Games.join_game, hg, hc]⟩
    · rw [List.find?_cons_of_neg _ (by simpa using hg)] at hf
      obtain ⟨l₁, l₂, rfl, hl₁, hg0, hrg⟩ := ih hf hc
      refine ⟨g :: l₁, l₂, by simp, ?_, hg0, ?_⟩
      · intro g' hg'
        rcases List.mem_cons.mp hg' with rfl | hmem
        · exact hg
        · exact hl₁ g' hmem
      · simp [Games.join_game, hg, hrg]

theorem join_game_preserves (gs : Games) (gid : GameId) (c : SocketId) :
    (∀ g0, (gs.find? fun g => decide (g.game_id = gid)) = some g0 → g0.host ≠ c) →
    host_not_member gs → host_not_member (Games.join_game gs gid c).1 := by
  induction gs with
  | nil => intro _ h; exact h
  | cons g rest ih =>
    intro hcond h g' hg'
    by_cases hg : g.game_id = gid
    · have hfind : ((g :: rest).find? fun x => decide (x.game_id = gid)) = some g :=
        List.find?_cons_of_pos _ (by simpa using hg)
      by_cases hc : c ∈ g.clients
      · simp only [Games.join_game, if_pos hg, if_pos hc] at hg'
        exact h g' hg'
      · simp only [Games.join_game, if_pos hg, if_neg hc] at hg'
        rcases List.mem_cons.mp hg' with rfl | hmem
        · intro habs
          rcases List.mem_append.mp habs with hin | hin
          · exact h g (List.mem_cons_self g rest) hin
          · exact hcond g hfind (List.mem_singleton.mp hin)
        · exact h g' (List.mem_cons_of_mem _ hmem)
    · simp only [Games.join_game, if_neg hg] at hg'
      rcases List.mem_cons.mp hg' with rfl | hmem
      · exact h _ (List.mem_cons_self _ _)
      · refine ih ?_ (fun x hx => h x (List.mem_cons_of_mem _ hx)) g' hmem
        intro g0 hg0
        exact hcond g0 (by rw [List.find?_cons_of_neg _ (by simpa using hg)]; exact hg0)

/-! ## The directory component of each router arm -/

theorem webrtc_games_eq (socket_id : SocketId) (games : Games) (tgt : Option SocketId)
    (d c : Option JsonValue) (fresh : GameId) :
    (process_incoming_message socket_id games
      (IncomingMessage.webrtcSignaling tgt d c) fresh).1 = games := by
  cases tgt with
  | none =>
    cases hf : Games.get_game_by_client games socket_id <;>
      simp [process_incoming_message, hf]
  | some t =>
    cases hf : Games.get_game_by_host games socket_id <;>
      simp [process_incoming_message, hf]

theorem join_arm_games_eq (socket_id : SocketId) (games : Games) (gid : GameId)
    (pw : Option String) (fresh : GameId) :
    (process_incoming_message socket_id games (IncomingMessage.joinGame gid pw) fresh).1 =
      (Games.join_game games gid socket_id).1 := by
  rcases h : Games.join_game games gid socket_id with ⟨gs2, res⟩
  cases res <;> simp [process_incoming_message, h]

theorem update_arm_games_eq (socket_id : SocketId) (games : Games)
    (server_name : String) (player_amount max_players : Nat) (rp : Option Bool)
    (fresh : GameId) :
    (process_incoming_message socket_id games
      (IncomingMessage.updateGameInfo server_name player_amount max_players rp) fresh).1 =
      (Games.update_info games socket_id
        { server_name := server_name, player_amount := player_amount,
          max_players := max_players, requires_password := rp.getD false }).1 := by
  rcases h : Games.update_info games socket_id
    { server_name := server_name, player_amount := player_amount,
      max_players := max_players, requires_password := rp.getD false } with ⟨gs2, ok⟩
  cases ok <;> simp [process_incoming_message, h]

/-! ## Preservation of the host-not-member invariant along traces -/

theorem host_not_member_step (games : Games) (s : TraceStep)
    (hinv : host_not_member games)
    (hjoin : ∀ gid pw fresh,
      s.event = ConnEvent.message (IncomingMessage.joinGame gid pw) fresh →
      ∀ g0, (games.find? fun g => decide (g.game_id = gid)) = some g0 →
        g0.host ≠ s.sender) :
    host_not_member (step_games games s) := by
  obtain ⟨sender, ev⟩ := s
  cases ev with
  | disconnect => exact process_disconnect_preserves games sender hinv
  | message m fresh =>
    cases m with
    | webrtcSignaling tgt d c =>
      show host_not_member (process_incoming_message sender games
        (IncomingMessage.webrtcSignaling tgt d c) fresh).1
      rw [webrtc_games_eq]
      exact hinv
    | createGame sname maxp gid? rp =>
      intro g hg
      have hg' : g ∈ games ++
          [({ game_id := gid?.getD fresh, host := sender, clients := [],
              game_info := { server_name := sname, player_amount := 1,
                             max_players := maxp,
                             requires_password := rp.getD false } } : Game)] := hg
      rcases List.mem_append.mp hg' with h1 | h2
      · exact hinv g h1
      · rw [List.mem_singleton.mp h2]
        exact List.not_mem_nil _
    | updateGameInfo n a mx rp =>
      show host_not_member (process_incoming_message sender games
        (IncomingMessage.updateGameInfo n a mx rp) fresh).1
      rw [update_arm_games_eq]
      exact update_info_preserves games sender _ hinv
    | listGames => exact hinv
    | joinGame gid pw =>
      show host_not_member (process_incoming_message sender games
        (IncomingMessage.joinGame gid pw) fresh).1
      rw [join_arm_games_eq]
      exact join_game_preserves games gid sender
        (fun g0 hg0 => hjoin gid pw fresh rfl g0 hg0) hinv
    | acceptJoin gid cid => exact hinv
    | rejectJoin gid cid reason => exact remove_client_preserves games cid hinv

theorem self_join_free_cons (games : Games) (s : TraceStep) (rest : List TraceStep)
    (h : self_join_free games (s :: rest) = true) :
    (∀ gid pw fresh,
      s.event = ConnEvent.message (IncomingMessage.joinGame gid pw) fresh →
      ∀ g0, (games.find? fun g => decide (g.game_id = gid)) = some g0 →
        g0.host ≠ s.sender) ∧
    self_join_free (step_games games s) rest = true := by
  rw [self_join_free, Bool.and_eq_true] at h
  refine ⟨?_, h.2⟩
  intro gid pw fresh hev g0 hg0
  have h1 := h.1
  rw [hev] at h1
  simp only [hg0] at h1
  exact of_decide_eq_true h1

theorem host_not_member_run (steps : List TraceStep) :
    ∀ games : Games, host_not_member games → self_join_free games steps = true →
      host_not_member (steps.foldl step_games games) := by
  induction steps with
  | nil => intro games hinv _; exact hinv
  | cons s rest ih =>
    intro games hinv hfree
    obtain ⟨hhead, htail⟩ := self_join_free_cons games s rest hfree
    exact ih (step_games games s) (host_not_member_step games s hinv hhead) htail

/-! ## The claims -/

/-- Claim C1, counterexample: starting from the empty directory, a host that
sends `joinGame` for the session it itself hosts is inserted into that
session's membership — after `[createGame (id g1) by alice, joinGame g1 by
alice]` some session's membership contains its own host id. -/
theorem self_join_breaks_host_not_member_cex :
    ∃ g ∈ run_trace
      [⟨sidA, ConnEvent.message (IncomingMessage.createGame ("Arena") 4 (some gidA) none) gidA⟩,
       ⟨sidA, ConnEvent.message (IncomingMessage.joinGame gidA none) gidA⟩],
      g.host ∈ g.clients := by
  decide

/-- Claim C1 (amended): for every sequence of operations applied to the
initially empty Session Directory in which no connection sends `joinGame`
naming a session it itself hosts (resolving the id to the first session
carrying it, as the code does), no session's membership ever contains that
session's own host id.  (`join_game` inserts the joiner unconditionally, so a
host joining its own session does become a member.) -/
theorem host_not_member_of_self_join_free (steps : List TraceStep)
    (hfree : self_join_free [] steps = true) :
    host_not_member (run_trace steps) :=
  host_not_member_run steps [] (fun g hg => absurd hg (List.not_mem_nil g)) hfree

/-- Witness for the amended C1: a create by alice followed by a join by bob is
a self-join-free trace, and the resulting directory satisfies the invariant. -/
theorem host_not_member_of_self_join_free_witness :
    host_not_member (run_trace
      [⟨sidA, ConnEvent.message (IncomingMessage.createGame ("Arena") 4 (some gidA) none) gidA⟩,
       ⟨sidB, ConnEvent.message (IncomingMessage.joinGame gidA none) gidB⟩]) :=
  host_not_member_of_self_join_free _ (by decide)

/-- Claim C2, counterexample: with only alice registered, a well-formed message
from alice whose routed recipient is the unregistered bob makes delivery hit
`Sockets::get`'s `unwrap` on `None` — the connection task panics instead of
swallowing the failure. -/
theorem delivery_unwrap_panics_cex :
    (handle_message
        (fun _ => Except.ok (IncomingMessage.webrtcSignaling (some sidB) none none))
        gidA sidA [⟨gidA, sidA, [], info0⟩] [(sidA, 0)]
        (some (Except.ok (RawMessage.text ("m"))))).delivery =
      some (Except.error unwrapPanicText) ∧
    Sockets.get [(sidA, 0)] sidB = none :=
  ⟨rfl, rfl⟩

/-- Claim C2 (amended): when a well-formed inbound message produces an
other-directed outbound message, delivery looks the target up in the
Connection Registry and unwraps the result: it succeeds exactly when the
target id is still registered, and when the target is no longer registered
the `unwrap` of `None` panics the sender's connection task — the failure is
not swallowed. -/
theorem delivery_outcome_spec (parse : String → Except String IncomingMessage)
    (fresh : GameId) (socket_id : SocketId) (games : Games) (sockets : Sockets)
    (data : String) :
    ((handle_message parse fresh socket_id games sockets
        (some (Except.ok (RawMessage.text data)))).delivery =
      if data = "" then none
      else
        match parse data with
        | Except.error _ => none
        | Except.ok m =>
          ((process_incoming_message socket_id games m fresh).2.other_message).map
            fun om => deliver_other sockets om.1) ∧
    (∀ t : SocketId,
      (deliver_other sockets t = Except.error unwrapPanicText ↔
        Sockets.get sockets t = none) ∧
      ∀ tx, deliver_other sockets t = Except.ok tx → Sockets.get sockets t = some tx) := by
  constructor
  · by_cases hd : data = ""
    · simp [handle_message, hd]
    · rcases hp : parse data with e | m <;> simp [handle_message, hd, hp]
  · intro t
    constructor
    · cases hs : Sockets.get sockets t <;> simp [deliver_other, hs]
    · intro tx
      cases hs : Sockets.get sockets t <;> simp [deliver_other, hs]

/-- Claim C3, counterexample: a connection that sends `createGame` twice
without an intervening removal hosts two sessions at once. -/
theorem double_create_two_hosted_cex :
    hosted_count (run_trace
      [⟨sidA, ConnEvent.message (IncomingMessage.createGame ("Arena") 4 (some gidA) none) gidA⟩,
       ⟨sidA, ConnEvent.message (IncomingMessage.createGame ("Arena") 4 (some gidB) none) gidB⟩])
      sidA = 2 := by
  decide

/-- Claim C3 (amended): the directory enforces no at-most-one-session-per-host
invariant: processing `createGame` in any state unconditionally appends one
new session hosted by the sender, so the sender's hosted-session count always
grows by exactly one — in particular a second `createGame` without removal
leaves the connection hosting two sessions. -/
theorem create_game_appends_hosted (games : Games) (socket_id : SocketId)
    (server_name : String) (max_players : Nat) (game_id : Option GameId)
    (requires_password : Option Bool) (fresh : GameId) :
    (process_incoming_message socket_id games
        (IncomingMessage.createGame server_name max_players game_id requires_password)
        fresh).1 =
      games ++ [{ game_id := game_id.getD fresh, host := socket_id, clients := [],
                  game_info := { server_name := server_name, player_amount := 1,
                                 max_players := max_players,
                                 requires_password := requires_password.getD false } }] ∧
    hosted_count (process_incoming_message socket_id games
        (IncomingMessage.createGame server_name max_players game_id requires_password)
        fresh).1 socket_id = hosted_count games socket_id + 1 := by
  refine ⟨rfl, ?_⟩
  show hosted_count (games ++ [_]) socket_id = _
  simp [hosted_count, List.filter_append]

/-- Claim C4, counterexample: alice hosts `g1` and is a member of bob's `g2`;
after disconnect cleanup for alice, `g1` is removed but — because
`process_disconnect` returns as soon as `remove_game` succeeds — alice is
still a member of the remaining session `g2`. -/
theorem disconnect_host_keeps_membership_cex :
    process_disconnect sidA [⟨gidA, sidA, [], info0⟩, ⟨gidB, sidB, [sidA], info0⟩] =
      [⟨gidB, sidB, [sidA], info0⟩] ∧
    ∃ g ∈ process_disconnect sidA [⟨gidA, sidA, [], info0⟩, ⟨gidB, sidB, [sidA], info0⟩],
      sidA ∈ g.clients := by
  constructor
  · rfl
  · decide

/-- Claim C4 (amended): disconnect cleanup for a connection `c` is either-or:
if `c` hosts no session, `c` is removed from every session's membership (and
is then absent from all of them); if `c` hosts a session, only the first such
session is removed and every other session — including any membership of `c`
elsewhere — is left untouched. -/
theorem process_disconnect_spec (games : Games) (c : SocketId) :
    (Games.get_game_by_host games c = none →
      process_disconnect c games = Games.remove_client games c ∧
      ∀ g ∈ process_disconnect c games, c ∉ g.clients) ∧
    (∀ g0, Games.get_game_by_host games c = some g0 →
      ∃ l₁ l₂, games = l₁ ++ g0 :: l₂ ∧ (∀ g ∈ l₁, g.host ≠ c) ∧ g0.host = c ∧
        process_disconnect c games = l₁ ++ l₂) := by
  constructor
  · intro hn
    have hnon : ∀ g ∈ games, g.host ≠ c := by
      intro g hg
      have := List.find?_eq_none.mp hn g hg
      simpa using this
    have hrg := remove_game_of_none games c hnon
    have heq : process_disconnect c games = Games.remove_client games c := by
      unfold process_disconnect
      rw [hrg]
      simp
    refine ⟨heq, ?_⟩
    rw [heq]
    exact remove_client_not_mem games c
  · intro g0 hf
    obtain ⟨l₁, l₂, hdec, hl₁, hh, hrg⟩ := remove_game_decomp games c g0 hf
    refine ⟨l₁, l₂, hdec, hl₁, hh, ?_⟩
    unfold process_disconnect
    rw [hrg]
    simp

/-- Claim C5, counterexample: a transport-level read failure (an `Err` result
from `recv`) is not fatal — `handle_message` returns `true` (keep running),
performs no directory cleanup and sends nothing, even though disconnect
cleanup would have changed the directory. -/
theorem read_error_not_fatal_cex :
    handle_message (fun _ => Except.error ("boom")) gidA sidA
        [⟨gidA, sidA, [], info0⟩] [] (some (Except.error ())) =
      { keep_running := true, games := [⟨gidA, sidA, [], info0⟩],
        sent_self := [], delivery := none } ∧
    process_disconnect sidA [⟨gidA, sidA, [], info0⟩] ≠ [⟨gidA, sidA, [], info0⟩] := by
  exact ⟨rfl, by decide⟩

/-- Claim C5 (amended): only transport closure (recv yielding `None`) is
fatal: the loop stops and directory cleanup runs.  A transport-level read
failure (an `Err` result from receiving a frame, as opposed to a malformed
but received frame) is merely logged: the loop keeps running, the directory
is untouched and nothing is sent on the connection. -/
theorem closure_fatal_read_error_recoverable
    (parse : String → Except String IncomingMessage) (fresh : GameId)
    (socket_id : SocketId) (games : Games) (sockets : Sockets) :
    handle_message parse fresh socket_id games sockets none =
      { keep_running := false, games := process_disconnect socket_id games,
        sent_self := [], delivery := none } ∧
    ∀ e : TransportError,
      handle_message parse fresh socket_id games sockets (some (Except.error e)) =
        { keep_running := true, games := games, sent_self := [], delivery := none } :=
  ⟨rfl, fun _ => rfl⟩

/-- Claim C9, counterexample: `rejectJoin` names session `g1`, of which alice
is not a member — yet the directory changes: alice is stripped from the other
session `g2` as well, so the "no-op when the client is not a member of the
named session" reading fails. -/
theorem reject_join_cross_session_cex :
    (∀ g ∈ ([⟨gidA, sidB, [], info0⟩, ⟨gidB, sidC, [sidA], info0⟩] : Games),
      g.game_id = gidA → sidA ∉ g.clients) ∧
    (process_incoming_message sidB [⟨gidA, sidB, [], info0⟩, ⟨gidB, sidC, [sidA], info0⟩]
        (IncomingMessage.rejectJoin gidA sidA ("r")) gidA).1 ≠
      [⟨gidA, sidB, [], info0⟩, ⟨gidB, sidC, [sidA], info0⟩] := by
  decide

/-- Claim C9 (amended): processing `rejectJoin(session id, client id, reason)`
removes the named client id from **every** session's membership, ignoring the
named session id (a no-op on the directory exactly when the client is a member
of no session at all), and forwards a rejection carrying the session id and
reason to the named client; no reply goes to the sender. -/
theorem reject_join_spec (games : Games) (socket_id : SocketId) (game_id : GameId)
    (client_id : SocketId) (reason : String) (fresh : GameId) :
    process_incoming_message socket_id games
        (IncomingMessage.rejectJoin game_id client_id reason) fresh =
      (Games.remove_client games client_id,
       MessagesToSend.other client_id (OutgoingMessage.rejectJoin game_id reason)) ∧
    (∀ g ∈ Games.remove_client games client_id, client_id ∉ g.clients) ∧
    ((∀ g ∈ games, client_id ∉ g.clients) → Games.remove_client games client_id = games) ∧
    MessagesToSend.other client_id (OutgoingMessage.rejectJoin game_id reason) =
      ⟨none, some (client_id, OutgoingMessage.rejectJoin game_id reason)⟩ :=
  ⟨rfl, remove_client_not_mem games client_id,
   remove_client_eq_self games client_id, rfl⟩

/-- Claim C10: `createGame` always succeeds with no uniqueness check on the
session id: a new session is appended with the sender as host, empty
membership, the caller-supplied id (or the freshly generated one when none
was supplied), current player count 1 and password flag defaulting to false;
exactly one `gameCreated` ack carrying the final id goes back to the sender,
and no other-directed message is produced. -/
theorem create_game_spec (games : Games) (socket_id : SocketId)
    (server_name : String) (max_players : Nat) (game_id : Option GameId)
    (requires_password : Option Bool) (fresh : GameId) :
    process_incoming_message socket_id games
        (IncomingMessage.createGame server_name max_players game_id requires_password)
        fresh =
      (games ++ [{ game_id := game_id.getD fresh, host := socket_id, clients := [],
                   game_info := { server_name := server_name, player_amount := 1,
                                  max_players := max_players,
                                  requires_password := requires_password.getD false } }],
       MessagesToSend.self_ (OutgoingMessage.gameCreated (game_id.getD fresh))) ∧
    MessagesToSend.self_ (OutgoingMessage.gameCreated (game_id.getD fresh)) =
      ⟨some (OutgoingMessage.gameCreated (game_id.getD fresh)), none⟩ :=
  ⟨rfl, rfl⟩

/-- Claim C6: `join_game` returns `GameNotFound` exactly when no session has
the given id; when a session with the id exists (the first such, since ids
are not checked for uniqueness), it returns `AlreadyJoined` exactly when the
client is already in its membership; otherwise it inserts the client into
that session's membership and returns the session's host id.  In both
failure cases every session's membership is left unchanged. -/
theorem join_game_spec (gs : Games) (gid : GameId) (c : SocketId) :
    ((gs.find? fun g => decide (g.game_id = gid)) = none ↔ ∀ g ∈ gs, g.game_id ≠ gid) ∧
    ((Games.join_game gs gid c).2 = Except.error JoinGameError.gameNotFound ↔
      ∀ g ∈ gs, g.game_id ≠ gid) ∧
    (∀ g0, (gs.find? fun g => decide (g.game_id = gid)) = some g0 →
      g0 ∈ gs ∧ g0.game_id = gid ∧
      ((Games.join_game gs gid c).2 = Except.error JoinGameError.alreadyJoined ↔
        c ∈ g0.clients) ∧
      (c ∈ g0.clients →
        Games.join_game gs gid c = (gs, Except.error JoinGameError.alreadyJoined)) ∧
      (c ∉ g0.clients →
        ∃ l₁ l₂, gs = l₁ ++ g0 :: l₂ ∧ (∀ g ∈ l₁, g.game_id ≠ gid) ∧
          Games.join_game gs gid c =
            (l₁ ++ { g0 with clients := g0.clients ++ [c] } :: l₂, Except.ok g0.host))) ∧
    (∀ e, (Games.join_game gs gid c).2 = Except.error e →
      (Games.join_game gs gid c).1 = gs) := by
  have hbridge : ((gs.find? fun g => decide (g.game_id = gid)) = none ↔
      ∀ g ∈ gs, g.game_id ≠ gid) := by
    simp [List.find?_eq_none]
  refine ⟨hbridge, ?_, ?_, ?_⟩
  · rcases hf : gs.find? fun g => decide (g.game_id = gid) with _ | g0
    · have hnone := hbridge.mp hf
      rw [join_game_of_none gs gid c hnone]
      exact ⟨fun _ => hnone, fun _ => rfl⟩
    · have hmem := List.mem_of_find?_eq_some hf
      have hgid : g0.game_id = gid := by simpa using List.find?_some hf
      constructor
      · intro hres
        by_cases hc : c ∈ g0.clients
        · rw [join_game_already gs gid c g0 hf hc] at hres
          simp at hres
        · obtain ⟨l₁, l₂, -, -, -, hjg⟩ := join_game_success_decomp gs gid c g0 hf hc
          rw [hjg] at hres
          simp at hres
      · intro hall
        exact absurd hgid (hall g0 hmem)
  · intro g0 hf
    have hmem := List.mem_of_find?_eq_some hf
    have hgid : g0.game_id = gid := by simpa using List.find?_some hf
    refine ⟨hmem, hgid, ?_, ?_, ?_⟩
    · constructor
      · intro hres
        by_contra hc
        obtain ⟨l₁, l₂, -, -, -, hjg⟩ := join_game_success_decomp gs gid c g0 hf hc
        rw [hjg] at hres
        simp at hres
      · intro hc
        rw [join_game_already gs gid c g0 hf hc]
    · intro hc
      exact join_game_already gs gid c g0 hf hc
    · intro hc
      obtain ⟨l₁, l₂, h1, h2, -, h4⟩ := join_game_success_decomp gs gid c g0 hf hc
      exact ⟨l₁, l₂, h1, h2, h4⟩
  · intro e hres
    rcases hf : gs.find? fun g => decide (g.game_id = gid) with _ | g0
    · rw [join_game_of_none gs gid c (hbridge.mp hf)]
    · by_cases hc : c ∈ g0.clients
      · rw [join_game_already gs gid c g0 hf hc]
      · obtain ⟨l₁, l₂, -, -, -, hjg⟩ := join_game_success_decomp gs gid c g0 hf hc
        rw [hjg] at hres
        simp at hres

/-- Claim C7: for a `webrtcSignaling` message the directory is unchanged and
exactly one of three outcomes occurs: a target id is present and the sender
hosts a session (the first such) — the payload is forwarded to the target
with the session id attached and the target-id field cleared; no target id is
present and the sender is a member of some session (the first such) — the
payload is forwarded to that session's host with the sender's id attached as
origin; otherwise no message at all is produced (silent drop, no error). -/
theorem webrtc_signaling_spec (games : Games) (sid : SocketId) (tgt : Option SocketId)
    (desc cand : Option JsonValue) (fresh : GameId) :
    (process_incoming_message sid games
      (IncomingMessage.webrtcSignaling tgt desc cand) fresh).1 = games ∧
    (∀ t, tgt = some t →
      (∀ g0, Games.get_game_by_host games sid = some g0 →
        g0 ∈ games ∧ g0.host = sid ∧
        (process_incoming_message sid games
          (IncomingMessage.webrtcSignaling tgt desc cand) fresh).2 =
          MessagesToSend.other t
            (OutgoingMessage.webrtcSignaling g0.game_id none desc cand)) ∧
      (Games.get_game_by_host games sid = none →
        (process_incoming_message sid games
          (IncomingMessage.webrtcSignaling tgt desc cand) fresh).2 =
          MessagesToSend.noMessages)) ∧
    (tgt = none →
      (∀ g0, Games.get_game_by_client games sid = some g0 →
        g0 ∈ games ∧ sid ∈ g0.clients ∧
        (process_incoming_message sid games
          (IncomingMessage.webrtcSignaling tgt desc cand) fresh).2 =
          MessagesToSend.other g0.host
            (OutgoingMessage.webrtcSignaling g0.game_id (some sid) desc cand)) ∧
      (Games.get_game_by_client games sid = none →
        (process_incoming_message sid games
          (IncomingMessage.webrtcSignaling tgt desc cand) fresh).2 =
          MessagesToSend.noMessages)) ∧
    (Games.get_game_by_host games sid = none ↔ ∀ g ∈ games, g.host ≠ sid) ∧
    (Games.get_game_by_client games sid = none ↔ ∀ g ∈ games, sid ∉ g.clients) ∧
    MessagesToSend.noMessages = ⟨none, none⟩ := by
  refine ⟨webrtc_games_eq sid games tgt desc cand fresh, ?_, ?_, ?_, ?_, rfl⟩
  · rintro t rfl
    constructor
    · intro g0 hf
      have hf' : (games.find? fun g => decide (g.host = sid)) = some g0 := hf
      refine ⟨List.mem_of_find?_eq_some hf', by simpa using List.find?_some hf', ?_⟩
      simp [process_incoming_message, hf]
    · intro hf
      simp [process_incoming_message, hf]
  · rintro rfl
    constructor
    · intro g0 hf
      have hf' : (games.find? fun g => decide (sid ∈ g.clients)) = some g0 := hf
      refine ⟨List.mem_of_find?_eq_some hf', by simpa using List.find?_some hf', ?_⟩
      simp [process_incoming_message, hf]
    · intro hf
      simp [process_incoming_message, hf]
  · simp [Games.get_game_by_host, List.find?_eq_none]
  · simp [Games.get_game_by_client, List.find?_eq_none]

/-- Claim C8: on `updateGameInfo`, a sender hosting no session mutates nothing
and gets exactly one error reply (no other-directed message); a sender
hosting a session (the first such) gets that session's info replaced by the
supplied values, the password flag defaulting to false when omitted, with no
reply at all. -/
theorem update_game_info_spec (games : Games) (sid : SocketId) (server_name : String)
    (player_amount max_players : Nat) (rp : Option Bool) (fresh : GameId) :
    ((∀ g ∈ games, g.host ≠ sid) →
      process_incoming_message sid games
          (IncomingMessage.updateGameInfo server_name player_amount max_players rp)
          fresh =
        (games,
         MessagesToSend.self_ (OutgoingMessage.error ("You\x27re not a game host")))) ∧
    (∀ g0, Games.get_game_by_host games sid = some g0 →
      ∃ l₁ l₂, games = l₁ ++ g0 :: l₂ ∧ (∀ g ∈ l₁, g.host ≠ sid) ∧ g0.host = sid ∧
        process_incoming_message sid games
            (IncomingMessage.updateGameInfo server_name player_amount max_players rp)
            fresh =
          (l₁ ++ { g0 with game_info :=
              { server_name := server_name, player_amount := player_amount,
                max_players := max_players, requires_password := rp.getD false } } :: l₂,
           MessagesToSend.noMessages)) ∧
    (Games.get_game_by_host games sid = none ↔ ∀ g ∈ games, g.host ≠ sid) ∧
    MessagesToSend.self_ (OutgoingMessage.error ("You\x27re not a game host")) =
      ⟨some (OutgoingMessage.error ("You\x27re not a game host")), none⟩ := by
  refine ⟨?_, ?_, ?_, rfl⟩
  · intro hnon
    have hup := update_info_of_none games sid
      { server_name := server_name, player_amount := player_amount,
        max_players := max_players, requires_password := rp.getD false } hnon
    simp [process_incoming_message, hup]
  · intro g0 hf
    obtain ⟨l₁, l₂, hdec, hl₁, hh, hup⟩ := update_info_decomp games sid
      { server_name := server_name, player_amount := player_amount,
        max_players := max_players, requires_password := rp.getD false } g0 hf
    exact ⟨l₁, l₂, hdec, hl₁, hh, by simp [process_incoming_message, hup]⟩
  · simp [Games.get_game_by_host, List.find?_eq_none]

end Lobby
